import Mathlib

set_option maxRecDepth 100000

/-!
Verification of the climate_meter Arduino sketch (climate_meter.ino).

The sketch is embedded shallowly:
* machine integers are `Nat` with explicit `% 2 ^ w` where width matters;
* 32-bit floats are represented by their IEEE-754 single-precision bit
  patterns (the AVR target is little-endian, and the sketch only ever
  copies raw float bytes with `memcpy`), so `EMPTY_VAL = -100.0` is the
  pattern `0xC2C80000`;
* the global mutable state (`bmpFound`, the seven float readings and the
  Modbus output buffer) is an explicit `Machine` structure;
* sensor hardware is an external collaborator, so each `read*` function
  takes the value the device would return as an input and additionally
  reports whether a bus transaction was attempted on that call.
-/

namespace ClimateMeter

/-- `EMPTY_VAL` (`-100.0` in the sketch) as an IEEE-754 single bit pattern. -/
def EMPTY_VAL : Nat := 0xC2C80000

/-- Table of CRC values for the high-order byte (`crcHiTable` in the sketch). -/
def crcHiTable : List Nat := [
  0x00, 0xC1, 0x81, 0x40, 0x01, 0xC0, 0x80, 0x41, 0x01, 0xC0, 0x80, 0x41, 0x00, 0xC1, 0x81,
  0x40, 0x01, 0xC0, 0x80, 0x41, 0x00, 0xC1, 0x81, 0x40, 0x00, 0xC1, 0x81, 0x40, 0x01, 0xC0,
  0x80, 0x41, 0x01, 0xC0, 0x80, 0x41, 0x00, 0xC1, 0x81, 0x40, 0x00, 0xC1, 0x81, 0x40, 0x01,
  0xC0, 0x80, 0x41, 0x00, 0xC1, 0x81, 0x40, 0x01, 0xC0, 0x80, 0x41, 0x01, 0xC0, 0x80, 0x41,
  0x00, 0xC1, 0x81, 0x40, 0x01, 0xC0, 0x80, 0x41, 0x00, 0xC1, 0x81, 0x40, 0x00, 0xC1, 0x81,
  0x40, 0x01, 0xC0, 0x80, 0x41, 0x00, 0xC1, 0x81, 0x40, 0x01, 0xC0, 0x80, 0x41, 0x01, 0xC0,
  0x80, 0x41, 0x00, 0xC1, 0x81, 0x40, 0x00, 0xC1, 0x81, 0x40, 0x01, 0xC0, 0x80, 0x41, 0x01,
  0xC0, 0x80, 0x41, 0x00, 0xC1, 0x81, 0x40, 0x01, 0xC0, 0x80, 0x41, 0x00, 0xC1, 0x81, 0x40,
  0x00, 0xC1, 0x81, 0x40, 0x01, 0xC0, 0x80, 0x41, 0x01, 0xC0, 0x80, 0x41, 0x00, 0xC1, 0x81,
  0x40, 0x00, 0xC1, 0x81, 0x40, 0x01, 0xC0, 0x80, 0x41, 0x00, 0xC1, 0x81, 0x40, 0x01, 0xC0,
  0x80, 0x41, 0x01, 0xC0, 0x80, 0x41, 0x00, 0xC1, 0x81, 0x40, 0x00, 0xC1, 0x81, 0x40, 0x01,
  0xC0, 0x80, 0x41, 0x01, 0xC0, 0x80, 0x41, 0x00, 0xC1, 0x81, 0x40, 0x01, 0xC0, 0x80, 0x41,
  0x00, 0xC1, 0x81, 0x40, 0x00, 0xC1, 0x81, 0x40, 0x01, 0xC0, 0x80, 0x41, 0x00, 0xC1, 0x81,
  0x40, 0x01, 0xC0, 0x80, 0x41, 0x01, 0xC0, 0x80, 0x41, 0x00, 0xC1, 0x81, 0x40, 0x01, 0xC0,
  0x80, 0x41, 0x00, 0xC1, 0x81, 0x40, 0x00, 0xC1, 0x81, 0x40, 0x01, 0xC0, 0x80, 0x41, 0x01,
  0xC0, 0x80, 0x41, 0x00, 0xC1, 0x81, 0x40, 0x00, 0xC1, 0x81, 0x40, 0x01, 0xC0, 0x80, 0x41,
  0x00, 0xC1, 0x81, 0x40, 0x01, 0xC0, 0x80, 0x41, 0x01, 0xC0, 0x80, 0x41, 0x00, 0xC1, 0x81,
  0x40]

/-- Table of CRC values for the low-order byte (`crcLoTable` in the sketch). -/
def crcLoTable : List Nat := [
  0x00, 0xC0, 0xC1, 0x01, 0xC3, 0x03, 0x02, 0xC2, 0xC6, 0x06, 0x07, 0xC7, 0x05, 0xC5, 0xC4,
  0x04, 0xCC, 0x0C, 0x0D, 0xCD, 0x0F, 0xCF, 0xCE, 0x0E, 0x0A, 0xCA, 0xCB, 0x0B, 0xC9, 0x09,
  0x08, 0xC8, 0xD8, 0x18, 0x19, 0xD9, 0x1B, 0xDB, 0xDA, 0x1A, 0x1E, 0xDE, 0xDF, 0x1F, 0xDD,
  0x1D, 0x1C, 0xDC, 0x14, 0xD4, 0xD5, 0x15, 0xD7, 0x17, 0x16, 0xD6, 0xD2, 0x12, 0x13, 0xD3,
  0x11, 0xD1, 0xD0, 0x10, 0xF0, 0x30, 0x31, 0xF1, 0x33, 0xF3, 0xF2, 0x32, 0x36, 0xF6, 0xF7,
  0x37, 0xF5, 0x35, 0x34, 0xF4, 0x3C, 0xFC, 0xFD, 0x3D, 0xFF, 0x3F, 0x3E, 0xFE, 0xFA, 0x3A,
  0x3B, 0xFB, 0x39, 0xF9, 0xF8, 0x38, 0x28, 0xE8, 0xE9, 0x29, 0xEB, 0x2B, 0x2A, 0xEA, 0xEE,
  0x2E, 0x2F, 0xEF, 0x2D, 0xED, 0xEC, 0x2C, 0xE4, 0x24, 0x25, 0xE5, 0x27, 0xE7, 0xE6, 0x26,
  0x22, 0xE2, 0xE3, 0x23, 0xE1, 0x21, 0x20, 0xE0, 0xA0, 0x60, 0x61, 0xA1, 0x63, 0xA3, 0xA2,
  0x62, 0x66, 0xA6, 0xA7, 0x67, 0xA5, 0x65, 0x64, 0xA4, 0x6C, 0xAC, 0xAD, 0x6D, 0xAF, 0x6F,
  0x6E, 0xAE, 0xAA, 0x6A, 0x6B, 0xAB, 0x69, 0xA9, 0xA8, 0x68, 0x78, 0xB8, 0xB9, 0x79, 0xBB,
  0x7B, 0x7A, 0xBA, 0xBE, 0x7E, 0x7F, 0xBF, 0x7D, 0xBD, 0xBC, 0x7C, 0xB4, 0x74, 0x75, 0xB5,
  0x77, 0xB7, 0xB6, 0x76, 0x72, 0xB2, 0xB3, 0x73, 0xB1, 0x71, 0x70, 0xB0, 0x50, 0x90, 0x91,
  0x51, 0x93, 0x53, 0x52, 0x92, 0x96, 0x56, 0x57, 0x97, 0x55, 0x95, 0x94, 0x54, 0x9C, 0x5C,
  0x5D, 0x9D, 0x5F, 0x9F, 0x9E, 0x5E, 0x5A, 0x9A, 0x9B, 0x5B, 0x99, 0x59, 0x58, 0x98, 0x88,
  0x48, 0x49, 0x89, 0x4B, 0x8B, 0x8A, 0x4A, 0x4E, 0x8E, 0x8F, 0x4F, 0x8D, 0x4D, 0x4C, 0x8C,
  0x44, 0x84, 0x85, 0x45, 0x87, 0x47, 0x46, 0x86, 0x82, 0x42, 0x43, 0x83, 0x41, 0x81, 0x80,
  0x40]

/-- One iteration of the `while (len--)` loop of `CRC16`:
`index = crcLo ^ *buf++; crcLo = crcHi ^ crcHiTable[index]; crcHi = crcLoTable[index];`.
The state is the pair `(crcHi, crcLo)`. -/
def crc16Step (hi lo b : Nat) : Nat × Nat :=
  let index := lo ^^^ b
  (crcLoTable.getD index 0, hi ^^^ crcHiTable.getD index 0)

/-- The `while` loop of `CRC16`, consuming the buffer byte by byte. -/
def crc16Aux (hi lo : Nat) : List Nat → Nat × Nat
  | [] => (hi, lo)
  | b :: rest =>
    let p := crc16Step hi lo b
    crc16Aux p.1 p.2 rest

/-- `CRC16(buf, len)` of the sketch: state initialised to `0xFF, 0xFF`,
returning `crcHi << 8 | crcLo`.  The C `len` argument is the length of the
embedded list. -/
def CRC16 (buf : List Nat) : Nat :=
  let p := crc16Aux 0xFF 0xFF buf
  (p.1 <<< 8) ||| p.2

/-- Modelled from the spec: one shift round of the reference CRC-16 with
reflected polynomial `0xA001` ("if crc&1 then crc = (crc>>1)^0xA001 else
crc = crc>>1"). -/
def crcRound (crc : Nat) : Nat :=
  if crc % 2 = 1 then (crc / 2) ^^^ 0xA001 else crc / 2

/-- Modelled from the spec: the reference CRC-16 (reflected polynomial
`0xA001`, initial value `0xFFFF`): xor each input byte into the low byte of
the running value, then apply eight shift rounds. -/
def crcRef (buf : List Nat) : Nat :=
  buf.foldl (fun crc b => crcRound^[8] (crc ^^^ b)) 0xFFFF

/-- The full machine state of the sketch: the `bmpFound` flag, the seven
float readings (as 32-bit patterns) and the Modbus output buffer. -/
structure Machine where
  bmpFound : Bool
  bmpP : Nat
  bmpT : Nat
  dhtH : Nat
  dhtT : Nat
  dsT0 : Nat
  dsT1 : Nat
  dsT2 : Nat
  modbusBuf : List Nat
  deriving Repr, DecidableEq

/-- The stored probe temperature of channel `i` (`dsT[i]` in the sketch). -/
def Machine.dsT (s : Machine) : Fin 3 → Nat
  | 0 => s.dsT0
  | 1 => s.dsT1
  | 2 => s.dsT2

/-- The initial contents of `modbusBuf`: slave address `0x00`, function code
`0x03`, byte count `0x1C`, then 28 register bytes and 2 CRC bytes. -/
def modbusBufInit : List Nat :=
  [0x00, 0x03, 0x1C,
   0x00, 0x00, 0x00, 0x00,
   0x00, 0x00, 0x00, 0x00,
   0x00, 0x00, 0x00, 0x00,
   0x00, 0x00, 0x00, 0x00,
   0x00, 0x00, 0x00, 0x00,
   0x00, 0x00, 0x00, 0x00,
   0x00, 0x00, 0x00, 0x00,
   0x00, 0x00]

/-- The global state right after C static initialisation: `bmpFound = false`,
every reading `EMPTY_VAL`, `modbusBuf` as declared. -/
def machineInit : Machine where
  bmpFound := false
  bmpP := EMPTY_VAL
  bmpT := EMPTY_VAL
  dhtH := EMPTY_VAL
  dhtT := EMPTY_VAL
  dsT0 := EMPTY_VAL
  dsT1 := EMPTY_VAL
  dsT2 := EMPTY_VAL
  modbusBuf := modbusBufInit

/-- `initBMP`: if `bmp.begin(BMP_ADDR)` succeeds (input `detected`), set
`bmpFound = true`; otherwise nothing changes.  `setSampling` is device-side
only. -/
def initBMP (s : Machine) (detected : Bool) : Machine :=
  if detected then { s with bmpFound := true } else s

/-- `initDHT`: `dht.begin()` is device-side only; no sketch state changes. -/
def initDHT (s : Machine) : Machine := s

/-- `initDS`: for each of the three buses, `begin()` and, when `getAddress`
succeeds (input `detected i`), `setResolution` — all device-side; no sketch
state is written, in particular no detection outcome is recorded. -/
def initDS (s : Machine) (detected : Fin 3 → Bool) : Machine :=
  let _ := detected
  s

/-- `setup()`: `initBMP(); initDHT(); initDS();` starting from the statically
initialised globals. -/
def setup (bmpDetected : Bool) (dsDetected : Fin 3 → Bool) : Machine :=
  initDS (initDHT (initBMP machineInit bmpDetected)) dsDetected

/-- `isnan` on an IEEE-754 single bit pattern: exponent all ones and nonzero
mantissa. -/
def isnanF32 (x : Nat) : Bool :=
  x / 2 ^ 23 % 2 ^ 8 == 0xFF && x % 2 ^ 23 != 0

/-- `readBMP`: only when `bmpFound`, store the device responses into `bmpP`
and `bmpT`.  The second component records whether a sensor transaction was
attempted. -/
def readBMP (s : Machine) (p t : Nat) : Machine × Bool :=
  if s.bmpFound then ({ s with bmpP := p, bmpT := t }, true) else (s, false)

/-- `readDHT`: read humidity and temperature; if either is NaN, store
`EMPTY_VAL` in both channels, else store the responses.  A transaction is
always attempted. -/
def readDHT (s : Machine) (h t : Nat) : Machine × Bool :=
  if isnanF32 h || isnanF32 t then
    ({ s with dhtH := EMPTY_VAL, dhtT := EMPTY_VAL }, true)
  else
    ({ s with dhtH := h, dhtT := t }, true)

/-- `readDS(index)`: `requestTemperatures()` then store
`getTempCByIndex(0)` (input `t`) into `dsT[index]`, unconditionally.  A bus
transaction is always attempted. -/
def readDS (s : Machine) (i : Fin 3) (t : Nat) : Machine × Bool :=
  match i with
  | 0 => ({ s with dsT0 := t }, true)
  | 1 => ({ s with dsT1 := t }, true)
  | 2 => ({ s with dsT2 := t }, true)

/-- The four bytes `memcpy` copies out of a 32-bit float on the little-endian
AVR target, given the float's bit pattern. -/
def bytesOfF32 (x : Nat) : List Nat :=
  [x % 2 ^ 8, x / 2 ^ 8 % 2 ^ 8, x / 2 ^ 16 % 2 ^ 8, x / 2 ^ 24 % 2 ^ 8]

/-- The two bytes `memcpy` copies out of an `unsigned short`, low byte
first. -/
def bytesOfU16 (x : Nat) : List Nat :=
  [x % 2 ^ 8, x / 2 ^ 8 % 2 ^ 8]

/-- Reassemble a 32-bit pattern from four little-endian bytes (how a client
decodes one payload float). -/
def decodeF32 (bs : List Nat) : Nat :=
  bs.getD 0 0 + 2 ^ 8 * bs.getD 1 0 + 2 ^ 16 * bs.getD 2 0 + 2 ^ 24 * bs.getD 3 0

/-- `memcpy(buf + off, data, data.length)` on a byte buffer. -/
def writeBytes (buf : List Nat) (off : Nat) (data : List Nat) : List Nat :=
  buf.take off ++ data ++ buf.drop (off + data.length)

/-- The 28 payload bytes in channel order: `bmpP, bmpT, dhtH, dhtT, dsT[0..2]`
(the sketch copies `dsT` as one 12-byte block). -/
def payloadBytes (s : Machine) : List Nat :=
  bytesOfF32 s.bmpP ++ bytesOfF32 s.bmpT ++ bytesOfF32 s.dhtH ++ bytesOfF32 s.dhtT ++
    (bytesOfF32 s.dsT0 ++ bytesOfF32 s.dsT1 ++ bytesOfF32 s.dsT2)

/-- The 33-byte frame `communicate` emits for store state `s` (header,
payload, and the CRC of the first 31 bytes, low byte first). -/
def frameBytes (s : Machine) : List Nat :=
  [0x00, 0x03, 0x1C] ++ payloadBytes s ++
    bytesOfU16 (CRC16 ([0x00, 0x03, 0x1C] ++ payloadBytes s))

/-- `communicate()`: drain all buffered inbound bytes, setting `sendResponse`
if any equals `0xDF`; if set, copy the seven floats into `modbusBuf`, append
the CRC of the first 31 bytes, and write all 33 bytes to the serial port.
Returns the new machine state and the bytes written in this invocation. -/
def communicate (s : Machine) (input : List Nat) : Machine × List Nat :=
  let sendResponse := input.any (fun b => b == 0xDF)
  if sendResponse then
    let buf1 := writeBytes s.modbusBuf 3 (bytesOfF32 s.bmpP)
    let buf2 := writeBytes buf1 7 (bytesOfF32 s.bmpT)
    let buf3 := writeBytes buf2 11 (bytesOfF32 s.dhtH)
    let buf4 := writeBytes buf3 15 (bytesOfF32 s.dhtT)
    let buf5 := writeBytes buf4 19 (bytesOfF32 s.dsT0 ++ bytesOfF32 s.dsT1 ++ bytesOfF32 s.dsT2)
    let crc := CRC16 (buf5.take 31)
    let buf6 := writeBytes buf5 31 (bytesOfU16 crc)
    ({ s with modbusBuf := buf6 }, buf6)
  else
    (s, [])

/-- The per-iteration external inputs of `loop()`: the device responses of
the five sensor reads and the inbound serial bytes drained by each of the
five `communicate()` calls. -/
structure LoopEnv where
  bmpPIn : Nat
  bmpTIn : Nat
  dhtHIn : Nat
  dhtTIn : Nat
  ds0In : Nat
  ds1In : Nat
  ds2In : Nat
  in1 : List Nat
  in2 : List Nat
  in3 : List Nat
  in4 : List Nat
  in5 : List Nat

/-- One iteration of `loop()`: `readBMP(); communicate(); readDHT();
communicate(); readDS(0); communicate(); readDS(1); communicate();
readDS(2); communicate();`.  Returns the final state and the five byte
sequences written by the five `communicate()` calls, in order. -/
def loopIter (s : Machine) (e : LoopEnv) : Machine × List (List Nat) :=
  let s1 := (readBMP s e.bmpPIn e.bmpTIn).1
  let c1 := communicate s1 e.in1
  let s3 := (readDHT c1.1 e.dhtHIn e.dhtTIn).1
  let c2 := communicate s3 e.in2
  let s5 := (readDS c2.1 0 e.ds0In).1
  let c3 := communicate s5 e.in3
  let s7 := (readDS c3.1 1 e.ds1In).1
  let c4 := communicate s7 e.in4
  let s9 := (readDS c4.1 2 e.ds2In).1
  let c5 := communicate s9 e.in5
  (c5.1, [c1.2, c2.2, c3.2, c4.2, c5.2])

/-- Any number of `loop()` iterations, given the inputs of each iteration. -/
def loopN (s : Machine) : List LoopEnv → Machine
  | [] => s
  | e :: es => loopN (loopIter s e).1 es

/-- The output-buffer invariant: `modbusBuf` still consists of the three
header bytes written by the static initialiser followed by 30 further
bytes.  It holds at startup and is preserved by every operation. -/
def bufOK (s : Machine) : Prop :=
  ∃ rest, s.modbusBuf = [0x00, 0x03, 0x1C] ++ rest ∧ rest.length = 30

theorem crcRound_eq_xor (x : Nat) :
    crcRound x = x / 2 ^^^ (if x % 2 = 1 then 0xA001 else 0) := by
  unfold crcRound
  split <;> simp

theorem xor_xor_xor_comm (a b c d : Nat) :
    (a ^^^ b) ^^^ (c ^^^ d) = (a ^^^ c) ^^^ (b ^^^ d) := by
  rw [Nat.xor_assoc, Nat.xor_assoc]
  congr 1
  rw [← Nat.xor_assoc, ← Nat.xor_assoc]
  congr 1
  exact Nat.xor_comm b c

theorem crcRound_xor (a b : Nat) :
    crcRound (a ^^^ b) = crcRound a ^^^ crcRound b := by
  rw [crcRound_eq_xor, crcRound_eq_xor, crcRound_eq_xor, Nat.xor_div_two]
  conv_rhs => rw [xor_xor_xor_comm]
  congr 1
  rcases Nat.mod_two_eq_zero_or_one a with ha | ha <;>
    rcases Nat.mod_two_eq_zero_or_one b with hb | hb <;>
      simp [Nat.xor_mod_two_eq_one, ha, hb] <;> omega

theorem crcRound_iterate_xor (n a b : Nat) :
    crcRound^[n] (a ^^^ b) = crcRound^[n] a ^^^ crcRound^[n] b := by
  induction n generalizing a b with
  | zero => simp
  | succ n ih => simp [Function.iterate_succ_apply, crcRound_xor, ih]

theorem mul_add_xor_of_lt (h l b : Nat) (hl : l < 2 ^ 8) (hb : b < 2 ^ 8) :
    (2 ^ 8 * h + l) ^^^ b = 2 ^ 8 * h + (l ^^^ b) := by
  apply Nat.eq_of_testBit_eq
  intro i
  rw [Nat.testBit_xor, Nat.testBit_mul_pow_two_add _ hl,
    Nat.testBit_mul_pow_two_add _ (Nat.xor_lt_two_pow hl hb)]
  by_cases hi : i < 8
  · simp [hi]
  · have hbi : b.testBit i = false :=
      Nat.testBit_lt_two_pow (lt_of_lt_of_le hb (Nat.pow_le_pow_right (by norm_num) (by omega)))
    simp [hi, hbi]

theorem mul_pow_xor (h b : Nat) (hb : b < 2 ^ 8) :
    (2 ^ 8 * h) ^^^ b = 2 ^ 8 * h + b := by
  have := mul_add_xor_of_lt h 0 b (by norm_num) hb
  simpa using this

theorem iterate_high_byte : ∀ h < 2 ^ 8, crcRound^[8] (2 ^ 8 * h) = h := by decide

theorem table_spec : ∀ i < 2 ^ 8,
    crcRound^[8] i = 2 ^ 8 * crcLoTable.getD i 0 + crcHiTable.getD i 0 := by decide

theorem crcHiTable_getD_lt (i : Nat) : crcHiTable.getD i 0 < 2 ^ 8 := by
  by_cases hi : i < 256
  · revert i hi
    decide
  · rw [List.getD_eq_default]
    · norm_num
    · simp only [not_lt] at hi
      calc crcHiTable.length = 256 := by decide
        _ ≤ i := hi

theorem crcLoTable_getD_lt (i : Nat) : crcLoTable.getD i 0 < 2 ^ 8 := by
  by_cases hi : i < 256
  · revert i hi
    decide
  · rw [List.getD_eq_default]
    · norm_num
    · simp only [not_lt] at hi
      calc crcLoTable.length = 256 := by decide
        _ ≤ i := hi

theorem crc16Step_spec (h l b : Nat) (hh : h < 2 ^ 8) (hl : l < 2 ^ 8) (hb : b < 2 ^ 8) :
    crcRound^[8] ((2 ^ 8 * h + l) ^^^ b) =
      2 ^ 8 * (crc16Step h l b).1 + (crc16Step h l b).2 := by
  have hix : l ^^^ b < 2 ^ 8 := Nat.xor_lt_two_pow hl hb
  rw [mul_add_xor_of_lt h l b hl hb, ← mul_pow_xor h (l ^^^ b) hix,
    crcRound_iterate_xor, iterate_high_byte h hh, table_spec (l ^^^ b) hix,
    Nat.xor_comm, mul_add_xor_of_lt _ _ _ (crcHiTable_getD_lt _) hh,
    Nat.xor_comm (crcHiTable.getD (l ^^^ b) 0) h]
  rfl

theorem crc16Aux_lt (buf : List Nat) : ∀ h l, h < 2 ^ 8 → l < 2 ^ 8 →
    (crc16Aux h l buf).1 < 2 ^ 8 ∧ (crc16Aux h l buf).2 < 2 ^ 8 := by
  induction buf with
  | nil => exact fun h l hh hl => ⟨hh, hl⟩
  | cons b rest ih =>
    intro h l hh hl
    exact ih _ _ (crcLoTable_getD_lt _) (Nat.xor_lt_two_pow hh (crcHiTable_getD_lt _))

theorem crc16Aux_spec (buf : List Nat) : ∀ h l, h < 2 ^ 8 → l < 2 ^ 8 →
    (∀ b ∈ buf, b < 2 ^ 8) →
    List.foldl (fun crc b => crcRound^[8] (crc ^^^ b)) (2 ^ 8 * h + l) buf =
      2 ^ 8 * (crc16Aux h l buf).1 + (crc16Aux h l buf).2 := by
  induction buf with
  | nil => intro h l _ _ _; rfl
  | cons b rest ih =>
    intro h l hh hl hb
    have hbb : b < 2 ^ 8 := hb b (List.mem_cons_self b rest)
    simp only [List.foldl_cons, crc16Aux]
    rw [crc16Step_spec h l b hh hl hbb]
    exact ih _ _ (crcLoTable_getD_lt _) (Nat.xor_lt_two_pow hh (crcHiTable_getD_lt _))
      (fun x hx => hb x (List.mem_cons_of_mem _ hx))

theorem shiftLeft_or_eq (h l : Nat) (hl : l < 2 ^ 8) :
    (h <<< 8) ||| l = 2 ^ 8 * h + l := by
  apply Nat.eq_of_testBit_eq
  intro i
  rw [Nat.testBit_or, Nat.testBit_shiftLeft, Nat.testBit_mul_pow_two_add _ hl]
  by_cases hi : i < 8
  · simp [hi, Nat.not_le.mpr hi]
  · have hli : l.testBit i = false :=
      Nat.testBit_lt_two_pow (lt_of_lt_of_le hl (Nat.pow_le_pow_right (by norm_num) (by omega)))
    simp [hi, hli, Nat.not_lt.mp hi]

theorem CRC16_eq_crcRef (buf : List Nat) (hb : ∀ b ∈ buf, b < 2 ^ 8) :
    CRC16 buf = crcRef buf := by
  have hlt := crc16Aux_lt buf 0xFF 0xFF (by norm_num) (by norm_num)
  have hspec := crc16Aux_spec buf 0xFF 0xFF (by norm_num) (by norm_num) hb
  show ((crc16Aux 0xFF 0xFF buf).1 <<< 8) ||| (crc16Aux 0xFF 0xFF buf).2 = crcRef buf
  rw [shiftLeft_or_eq _ _ hlt.2, ← hspec]
  norm_num [crcRef]

theorem length_bytesOfF32 (x : Nat) : (bytesOfF32 x).length = 4 := rfl

theorem length_bytesOfU16 (x : Nat) : (bytesOfU16 x).length = 2 := rfl

theorem writeBytes_append (pre post data : List Nat) (n k : Nat)
    (hn : pre.length = n) (hk : data.length = k) :
    writeBytes (pre ++ post) n data = pre ++ data ++ post.drop k := by
  subst hn hk
  unfold writeBytes
  rw [List.take_left]
  have hdrop : (pre ++ post).drop (pre.length + data.length) = post.drop data.length := by
    rw [← List.drop_drop, List.drop_left]
  rw [hdrop]

theorem length_payloadBytes (s : Machine) : (payloadBytes s).length = 28 := rfl

theorem header_payload_length (s : Machine) :
    ([0x00, 0x03, 0x1C] ++ payloadBytes s).length = 31 := rfl

theorem communicate_no_trigger (s : Machine) (input : List Nat) (ht : 0xDF ∉ input) :
    communicate s input = (s, []) := by
  have hfalse : input.any (fun b => b == 0xDF) = false := by
    rw [List.any_eq_false]
    intro x hx
    simp only [beq_iff_eq]
    intro hxe
    exact ht (hxe ▸ hx)
  simp [communicate, hfalse]

theorem communicate_trigger (s : Machine) (input : List Nat)
    (hok : bufOK s) (ht : 0xDF ∈ input) :
    communicate s input = ({ s with modbusBuf := frameBytes s }, frameBytes s) := by
  obtain ⟨rest, hbuf, hlen⟩ := hok
  have htrig : input.any (fun b => b == 0xDF) = true :=
    List.any_eq_true.mpr ⟨0xDF, ht, by simp⟩
  have h1 : writeBytes s.modbusBuf 3 (bytesOfF32 s.bmpP)
      = [0x00, 0x03, 0x1C] ++ bytesOfF32 s.bmpP ++ rest.drop 4 := by
    rw [hbuf]
    exact writeBytes_append _ _ _ _ _ rfl rfl
  have h2 : writeBytes ([0x00, 0x03, 0x1C] ++ bytesOfF32 s.bmpP ++ rest.drop 4) 7
        (bytesOfF32 s.bmpT)
      = [0x00, 0x03, 0x1C] ++ bytesOfF32 s.bmpP ++ bytesOfF32 s.bmpT ++
          (rest.drop 4).drop 4 :=
    writeBytes_append _ _ _ _ _ rfl rfl
  have h3 : writeBytes ([0x00, 0x03, 0x1C] ++ bytesOfF32 s.bmpP ++ bytesOfF32 s.bmpT ++
        (rest.drop 4).drop 4) 11 (bytesOfF32 s.dhtH)
      = [0x00, 0x03, 0x1C] ++ bytesOfF32 s.bmpP ++ bytesOfF32 s.bmpT ++ bytesOfF32 s.dhtH ++
          ((rest.drop 4).drop 4).drop 4 :=
    writeBytes_append _ _ _ _ _ rfl rfl
  have h4 : writeBytes ([0x00, 0x03, 0x1C] ++ bytesOfF32 s.bmpP ++ bytesOfF32 s.bmpT ++
        bytesOfF32 s.dhtH ++ ((rest.drop 4).drop 4).drop 4) 15 (bytesOfF32 s.dhtT)
      = [0x00, 0x03, 0x1C] ++ bytesOfF32 s.bmpP ++ bytesOfF32 s.bmpT ++ bytesOfF32 s.dhtH ++
          bytesOfF32 s.dhtT ++ (((rest.drop 4).drop 4).drop 4).drop 4 :=
    writeBytes_append _ _ _ _ _ rfl rfl
  have h5 : writeBytes ([0x00, 0x03, 0x1C] ++ bytesOfF32 s.bmpP ++ bytesOfF32 s.bmpT ++
        bytesOfF32 s.dhtH ++ bytesOfF32 s.dhtT ++ (((rest.drop 4).drop 4).drop 4).drop 4) 19
        (bytesOfF32 s.dsT0 ++ bytesOfF32 s.dsT1 ++ bytesOfF32 s.dsT2)
      = ([0x00, 0x03, 0x1C] ++ payloadBytes s) ++
          ((((rest.drop 4).drop 4).drop 4).drop 4).drop 12 := by
    have := writeBytes_append
      ([0x00, 0x03, 0x1C] ++ bytesOfF32 s.bmpP ++ bytesOfF32 s.bmpT ++
        bytesOfF32 s.dhtH ++ bytesOfF32 s.dhtT)
      ((((rest.drop 4).drop 4).drop 4).drop 4)
      (bytesOfF32 s.dsT0 ++ bytesOfF32 s.dsT1 ++ bytesOfF32 s.dsT2) 19 12 (by rfl) (by rfl)
    rw [this]
    simp [payloadBytes, List.append_assoc]
  have hnil : (((((rest.drop 4).drop 4).drop 4).drop 4).drop 12).drop 2 = [] := by
    simp only [List.drop_drop]
    apply List.drop_eq_nil_of_le
    omega
  have h6 : writeBytes (([0x00, 0x03, 0x1C] ++ payloadBytes s) ++
        ((((rest.drop 4).drop 4).drop 4).drop 4).drop 12) 31
        (bytesOfU16 (CRC16 ([0x00, 0x03, 0x1C] ++ payloadBytes s)))
      = frameBytes s := by
    rw [writeBytes_append _ _ _ _ 2 (header_payload_length s) (length_bytesOfU16 _), hnil]
    simp [frameBytes]
  have htake : ((([0x00, 0x03, 0x1C] ++ payloadBytes s) ++
        ((((rest.drop 4).drop 4).drop 4).drop 4).drop 12).take 31)
      = [0x00, 0x03, 0x1C] ++ payloadBytes s :=
    List.take_left' (header_payload_length s)
  simp only [communicate, htrig, if_true]
  rw [h1, h2, h3, h4, h5, htake, h6]

theorem bufOK_machineInit : bufOK machineInit :=
  ⟨[0x00, 0x00, 0x00, 0x00, 0x00, 0x00, 0x00, 0x00, 0x00, 0x00,
    0x00, 0x00, 0x00, 0x00, 0x00, 0x00, 0x00, 0x00, 0x00, 0x00,
    0x00, 0x00, 0x00, 0x00, 0x00, 0x00, 0x00, 0x00, 0x00, 0x00], rfl, rfl⟩

theorem bufOK_setup (b : Bool) (d : Fin 3 → Bool) : bufOK (setup b d) := by
  unfold setup initDS initDHT initBMP
  split <;> exact bufOK_machineInit

theorem bufOK_frameBytes (s s' : Machine) (h : s'.modbusBuf = frameBytes s) : bufOK s' :=
  ⟨payloadBytes s ++ bytesOfU16 (CRC16 ([0x00, 0x03, 0x1C] ++ payloadBytes s)),
    by rw [h]; simp [frameBytes],
    by simp [length_payloadBytes, length_bytesOfU16]⟩

theorem bufOK_communicate (s : Machine) (input : List Nat) (hok : bufOK s) :
    bufOK (communicate s input).1 := by
  by_cases ht : 0xDF ∈ input
  · rw [communicate_trigger s input hok ht]
    exact bufOK_frameBytes s _ rfl
  · rw [communicate_no_trigger s input ht]
    exact hok

theorem communicate_output (s : Machine) (input : List Nat) (hok : bufOK s) :
    (communicate s input).2 = if 0xDF ∈ input then frameBytes s else [] := by
  by_cases ht : 0xDF ∈ input
  · rw [communicate_trigger s input hok ht, if_pos ht]
  · rw [communicate_no_trigger s input ht, if_neg ht]

@[simp] theorem communicate_fst_bmpFound (s : Machine) (i : List Nat) :
    (communicate s i).1.bmpFound = s.bmpFound := by
  cases hc : i.any (fun b => b == 0xDF) <;> simp [communicate, hc]

@[simp] theorem communicate_fst_bmpP (s : Machine) (i : List Nat) :
    (communicate s i).1.bmpP = s.bmpP := by
  cases hc : i.any (fun b => b == 0xDF) <;> simp [communicate, hc]

@[simp] theorem communicate_fst_bmpT (s : Machine) (i : List Nat) :
    (communicate s i).1.bmpT = s.bmpT := by
  cases hc : i.any (fun b => b == 0xDF) <;> simp [communicate, hc]

@[simp] theorem communicate_fst_dhtH (s : Machine) (i : List Nat) :
    (communicate s i).1.dhtH = s.dhtH := by
  cases hc : i.any (fun b => b == 0xDF) <;> simp [communicate, hc]

@[simp] theorem communicate_fst_dhtT (s : Machine) (i : List Nat) :
    (communicate s i).1.dhtT = s.dhtT := by
  cases hc : i.any (fun b => b == 0xDF) <;> simp [communicate, hc]

@[simp] theorem communicate_fst_dsT0 (s : Machine) (i : List Nat) :
    (communicate s i).1.dsT0 = s.dsT0 := by
  cases hc : i.any (fun b => b == 0xDF) <;> simp [communicate, hc]

@[simp] theorem communicate_fst_dsT1 (s : Machine) (i : List Nat) :
    (communicate s i).1.dsT1 = s.dsT1 := by
  cases hc : i.any (fun b => b == 0xDF) <;> simp [communicate, hc]

@[simp] theorem communicate_fst_dsT2 (s : Machine) (i : List Nat) :
    (communicate s i).1.dsT2 = s.dsT2 := by
  cases hc : i.any (fun b => b == 0xDF) <;> simp [communicate, hc]

@[simp] theorem readDHT_fst_bmpFound (s : Machine) (h t : Nat) :
    (readDHT s h t).1.bmpFound = s.bmpFound := by
  unfold readDHT
  split <;> rfl

@[simp] theorem readDHT_fst_bmpP (s : Machine) (h t : Nat) :
    (readDHT s h t).1.bmpP = s.bmpP := by
  unfold readDHT
  split <;> rfl

@[simp] theorem readDHT_fst_bmpT (s : Machine) (h t : Nat) :
    (readDHT s h t).1.bmpT = s.bmpT := by
  unfold readDHT
  split <;> rfl

@[simp] theorem readDHT_fst_modbusBuf (s : Machine) (h t : Nat) :
    (readDHT s h t).1.modbusBuf = s.modbusBuf := by
  unfold readDHT
  split <;> rfl

@[simp] theorem readDS_fst_bmpFound (s : Machine) (i : Fin 3) (t : Nat) :
    (readDS s i t).1.bmpFound = s.bmpFound := by
  fin_cases i <;> rfl

@[simp] theorem readDS_fst_bmpP (s : Machine) (i : Fin 3) (t : Nat) :
    (readDS s i t).1.bmpP = s.bmpP := by
  fin_cases i <;> rfl

@[simp] theorem readDS_fst_bmpT (s : Machine) (i : Fin 3) (t : Nat) :
    (readDS s i t).1.bmpT = s.bmpT := by
  fin_cases i <;> rfl

@[simp] theorem readDS_fst_modbusBuf (s : Machine) (i : Fin 3) (t : Nat) :
    (readDS s i t).1.modbusBuf = s.modbusBuf := by
  fin_cases i <;> rfl

@[simp] theorem readBMP_fst_modbusBuf (s : Machine) (p t : Nat) :
    (readBMP s p t).1.modbusBuf = s.modbusBuf := by
  unfold readBMP
  split <;> rfl

theorem readBMP_absent (s : Machine) (p t : Nat) (h : s.bmpFound = false) :
    readBMP s p t = (s, false) := by
  unfold readBMP
  rw [h]
  simp

theorem bufOK_readBMP (s : Machine) (p t : Nat) (hok : bufOK s) :
    bufOK (readBMP s p t).1 := by
  obtain ⟨rest, hbuf, hlen⟩ := hok
  exact ⟨rest, by rw [readBMP_fst_modbusBuf]; exact hbuf, hlen⟩

theorem bufOK_readDHT (s : Machine) (h t : Nat) (hok : bufOK s) :
    bufOK (readDHT s h t).1 := by
  obtain ⟨rest, hbuf, hlen⟩ := hok
  exact ⟨rest, by rw [readDHT_fst_modbusBuf]; exact hbuf, hlen⟩

theorem bufOK_readDS (s : Machine) (i : Fin 3) (t : Nat) (hok : bufOK s) :
    bufOK (readDS s i t).1 := by
  obtain ⟨rest, hbuf, hlen⟩ := hok
  exact ⟨rest, by rw [readDS_fst_modbusBuf]; exact hbuf, hlen⟩

theorem loopIter_bmp_absent (s : Machine) (e : LoopEnv) (h : s.bmpFound = false) :
    (loopIter s e).1.bmpFound = false
    ∧ (loopIter s e).1.bmpP = s.bmpP
    ∧ (loopIter s e).1.bmpT = s.bmpT := by
  simp only [loopIter, readBMP_absent s e.bmpPIn e.bmpTIn h]
  simp [h]

theorem loopN_bmp_absent (envs : List LoopEnv) : ∀ s : Machine, s.bmpFound = false →
    (loopN s envs).bmpFound = false
    ∧ (loopN s envs).bmpP = s.bmpP
    ∧ (loopN s envs).bmpT = s.bmpT := by
  induction envs with
  | nil => exact fun s h => ⟨h, rfl, rfl⟩
  | cons e es ih =>
    intro s h
    have hstep := loopIter_bmp_absent s e h
    have hrest := ih (loopIter s e).1 hstep.1
    exact ⟨hrest.1, hrest.2.1.trans hstep.2.1, hrest.2.2.trans hstep.2.2⟩

/-- Claim C1: for every byte buffer, `CRC16` equals the reference CRC-16 with
reflected polynomial `0xA001` and initial value `0xFFFF`; settled in
particular on the empty buffer (`0xFFFF`), a single-byte buffer, and the
standard multi-byte check vector "123456789" (CRC `0x4B37`). -/
theorem c1_crc16_matches_reference (buf : List Nat) (hb : ∀ b ∈ buf, b < 2 ^ 8) :
    CRC16 buf = crcRef buf
    ∧ CRC16 [] = 0xFFFF ∧ crcRef [] = 0xFFFF
    ∧ CRC16 [0x31] = crcRef [0x31]
    ∧ CRC16 [0x31, 0x32, 0x33, 0x34, 0x35, 0x36, 0x37, 0x38, 0x39] = 0x4B37
    ∧ crcRef [0x31, 0x32, 0x33, 0x34, 0x35, 0x36, 0x37, 0x38, 0x39] = 0x4B37 :=
  ⟨CRC16_eq_crcRef buf hb, by decide, by decide, by decide, by decide, by decide⟩

/-- Witness for C1 at the request frame prefix `00 03 00 00 00 0E` quoted in
the sketch's own comment (its CRC bytes there are `C5 DF`). -/
theorem c1_crc16_matches_reference_witness :
    (∀ b ∈ [0x00, 0x03, 0x00, 0x00, 0x00, 0x0E], b < 2 ^ 8)
    ∧ CRC16 [0x00, 0x03, 0x00, 0x00, 0x00, 0x0E] = crcRef [0x00, 0x03, 0x00, 0x00, 0x00, 0x0E]
    ∧ CRC16 [0x00, 0x03, 0x00, 0x00, 0x00, 0x0E] = 0xDFC5 :=
  ⟨by decide,
   (c1_crc16_matches_reference [0x00, 0x03, 0x00, 0x00, 0x00, 0x0E] (by decide)).1,
   by decide⟩

/-- Counterexample to C2: a probe (DS) read whose result is NaN (a
not-a-number failure) stores the NaN pattern verbatim, not the sentinel,
and the emitted frame's probe-0 field then decodes to that pattern; likewise
a detected BMP whose read yields NaN stores it verbatim. -/
theorem c2_counterexample :
    isnanF32 0x7FC00000 = true
    ∧ (readDS (setup true (fun _ => true)) 0 0x7FC00000).1.dsT0 = 0x7FC00000
    ∧ ¬ (readDS (setup true (fun _ => true)) 0 0x7FC00000).1.dsT0 = EMPTY_VAL
    ∧ (readBMP (setup true (fun _ => true)) 0x7FC00000 0x7FC00000).1.bmpP = 0x7FC00000
    ∧ ¬ (readBMP (setup true (fun _ => true)) 0x7FC00000 0x7FC00000).1.bmpP = EMPTY_VAL
    ∧ decodeF32 (((communicate (readDS (setup true (fun _ => true)) 0 0x7FC00000).1
        [0xDF]).2.drop 19).take 4) = 0x7FC00000 := by
  decide

/-- Claim C2 (amended): the sentinel substitution on failure is performed
only by the DHT path (NaN in either value resets both DHT channels); the
BMP path skips the read entirely when the device was not detected at
initialisation, so its channels keep whatever they held (the startup
sentinel); the DS path stores the adapter's returned value unconditionally,
with no failure substitution. -/
theorem c2_amended_sentinel_handling (s : Machine) (h t : Nat)
    (hnan : (isnanF32 h || isnanF32 t) = true) :
    ((readDHT s h t).1.dhtH = EMPTY_VAL ∧ (readDHT s h t).1.dhtT = EMPTY_VAL)
    ∧ (∀ (s' : Machine) (p q : Nat), s'.bmpFound = false → (readBMP s' p q).1 = s')
    ∧ (∀ (s' : Machine) (i : Fin 3) (x : Nat), ((readDS s' i x).1).dsT i = x) := by
  refine ⟨?_, ?_, ?_⟩
  · unfold readDHT
    rw [hnan]
    exact ⟨rfl, rfl⟩
  · intro s' p q hb
    rw [readBMP_absent s' p q hb]
  · intro s' i x
    fin_cases i <;> rfl

/-- Witness for the amended C2 at a concrete NaN humidity response. -/
theorem c2_amended_sentinel_handling_witness :
    (isnanF32 0x7FC00000 || isnanF32 0) = true
    ∧ (readDHT machineInit 0x7FC00000 0).1.dhtH = EMPTY_VAL
    ∧ (readDHT machineInit 0x7FC00000 0).1.dhtT = EMPTY_VAL :=
  ⟨by decide,
   (c2_amended_sentinel_handling machineInit 0x7FC00000 0 (by decide)).1.1,
   (c2_amended_sentinel_handling machineInit 0x7FC00000 0 (by decide)).1.2⟩

/-- Counterexample to C3: with no DS device detected at initialisation, a
probe read still attempts its bus transaction and stores the device
response (it does not report Unavailable); and the pressure adapter, whose
device was not detected, does *not* attempt its read.  The guard is on the
BMP family, not the probe family. -/
theorem c3_counterexample :
    (readDS (setup true (fun _ => false)) 0 0x42C80000).2 = true
    ∧ (readDS (setup true (fun _ => false)) 0 0x42C80000).1.dsT0 = 0x42C80000
    ∧ ¬ (readDS (setup true (fun _ => false)) 0 0x42C80000).1.dsT0 = EMPTY_VAL
    ∧ (readBMP (setup false (fun _ => true)) 0x42C80000 0x42C80000).2 = false
    ∧ (readBMP (setup false (fun _ => true)) 0x42C80000 0x42C80000).1
        = setup false (fun _ => true) := by
  decide

/-- Claim C3 (amended): the absent-device optimization is applied only to
the pressure (BMP) family: `readBMP` attempts a transaction exactly when
`bmpFound`, and skips the read leaving the state unchanged otherwise.  DS
initialisation records no detection outcome at all (`setup` is independent
of it), and both the probe and humidity adapters attempt their transaction
on every read. -/
theorem c3_amended_absent_optimization (s : Machine) (p t x hx tx : Nat) (i : Fin 3)
    (b : Bool) (d d' : Fin 3 → Bool) :
    (readBMP s p t).2 = s.bmpFound
    ∧ (s.bmpFound = false → (readBMP s p t).1 = s)
    ∧ (readDS s i x).2 = true
    ∧ (readDHT s hx tx).2 = true
    ∧ setup b d = setup b d' := by
  refine ⟨?_, ?_, ?_, ?_, rfl⟩
  · unfold readBMP
    cases hb : s.bmpFound <;> simp [hb]
  · intro hb
    rw [readBMP_absent s p t hb]
  · fin_cases i <;> rfl
  · unfold readDHT
    split <;> rfl

/-- Witness for the amended C3 at concrete states. -/
theorem c3_amended_absent_optimization_witness :
    (readBMP machineInit 0 0).2 = machineInit.bmpFound
    ∧ (machineInit.bmpFound = false → (readBMP machineInit 0 0).1 = machineInit)
    ∧ (readDS machineInit 0 0).2 = true
    ∧ (readDHT machineInit 0 0).2 = true
    ∧ setup false (fun _ => false) = setup false (fun _ => true) :=
  c3_amended_absent_optimization machineInit 0 0 0 0 0 0 false
    (fun _ => false) (fun _ => true)

/-- Claim C4: whenever the drained input contains the byte `0xDF` (anywhere,
once or repeatedly), `communicate` writes exactly one 33-byte frame; with
no `0xDF` in the input it writes nothing. -/
theorem c4_trigger_emits_one_frame (s : Machine) (input : List Nat) (hok : bufOK s) :
    (0xDF ∈ input → (communicate s input).2.length = 33)
    ∧ (0xDF ∉ input → (communicate s input).2 = []) := by
  constructor
  · intro ht
    rw [communicate_trigger s input hok ht]
    rfl
  · intro ht
    rw [communicate_no_trigger s input ht]

/-- Witness for C4: the spec's example inputs `[0x01, 0x02, 0xDF]` and
`[0x00, 0x03, 0x00]`. -/
theorem c4_trigger_emits_one_frame_witness :
    (bufOK (setup false (fun _ => false))
      ∧ (0xDF ∈ [0x01, 0x02, 0xDF] →
          (communicate (setup false (fun _ => false)) [0x01, 0x02, 0xDF]).2.length = 33))
    ∧ (0xDF ∉ [0x00, 0x03, 0x00]
      ∧ (communicate (setup false (fun _ => false)) [0x00, 0x03, 0x00]).2 = []) :=
  ⟨⟨bufOK_setup false (fun _ => false),
    (c4_trigger_emits_one_frame (setup false (fun _ => false)) [0x01, 0x02, 0xDF]
      (bufOK_setup false (fun _ => false))).1⟩,
   by decide,
   (c4_trigger_emits_one_frame (setup false (fun _ => false)) [0x00, 0x03, 0x00]
      (bufOK_setup false (fun _ => false))).2 (by decide)⟩

/-- Claim C5: the emitted frame carries at offsets 31 and 32 the CRC16 of
its own first 31 bytes, low byte first, and the payload length field at
offset 2 is the constant 28, for every store state. -/
theorem c5_checksum_field (s : Machine) (input : List Nat) (hok : bufOK s)
    (ht : 0xDF ∈ input) :
    (communicate s input).2.getD 31 0 = CRC16 ((communicate s input).2.take 31) % 2 ^ 8
    ∧ (communicate s input).2.getD 32 0
        = CRC16 ((communicate s input).2.take 31) / 2 ^ 8 % 2 ^ 8
    ∧ (communicate s input).2.getD 2 0 = 28 := by
  rw [communicate_trigger s input hok ht]
  have htake : (frameBytes s).take 31 = [0x00, 0x03, 0x1C] ++ payloadBytes s := by
    show (([0x00, 0x03, 0x1C] ++ payloadBytes s) ++
      bytesOfU16 (CRC16 ([0x00, 0x03, 0x1C] ++ payloadBytes s))).take 31 = _
    exact List.take_left' (header_payload_length s)
  rw [htake]
  exact ⟨rfl, rfl, rfl⟩

/-- Witness for C5 at the all-sentinel startup store. -/
theorem c5_checksum_field_witness :
    (bufOK (setup false (fun _ => false)) ∧ 0xDF ∈ [0xDF])
    ∧ (communicate (setup false (fun _ => false)) [0xDF]).2.getD 2 0 = 28 :=
  ⟨⟨bufOK_setup false (fun _ => false), by decide⟩,
   (c5_checksum_field (setup false (fun _ => false)) [0xDF]
      (bufOK_setup false (fun _ => false)) (by decide)).2.2⟩

/-- Claim C6: the emitted response is exactly 33 bytes and always starts
with `0x00, 0x03, 0x1C`, independent of the stored readings. -/
theorem c6_frame_header (s : Machine) (input : List Nat) (hok : bufOK s)
    (ht : 0xDF ∈ input) :
    (communicate s input).2.length = 33
    ∧ (communicate s input).2.take 3 = [0x00, 0x03, 0x1C] := by
  rw [communicate_trigger s input hok ht]
  exact ⟨rfl, rfl⟩

/-- Witness for C6 at the startup store. -/
theorem c6_frame_header_witness :
    (bufOK (setup false (fun _ => false)) ∧ 0xDF ∈ [0xDF])
    ∧ (communicate (setup false (fun _ => false)) [0xDF]).2.take 3 = [0x00, 0x03, 0x1C] :=
  ⟨⟨bufOK_setup false (fun _ => false), by decide⟩,
   (c6_frame_header (setup false (fun _ => false)) [0xDF]
      (bufOK_setup false (fun _ => false)) (by decide)).2⟩

/-- Claim C7: the seven channel readings are serialized as 4 native-endian
bytes each at frame offsets 3, 7, 11, 15, 19, 23, 27 in the fixed order
`bmpP, bmpT, dhtH, dhtT, dsT0, dsT1, dsT2`; and (round trip) encoding the
all-sentinel startup store and decoding the 7 payload floats yields seven
values equal to the `-100.0` pattern. -/
theorem c7_payload_layout (s : Machine) (input : List Nat) (hok : bufOK s)
    (ht : 0xDF ∈ input) :
    ((communicate s input).2.drop 3).take 4 = bytesOfF32 s.bmpP
    ∧ ((communicate s input).2.drop 7).take 4 = bytesOfF32 s.bmpT
    ∧ ((communicate s input).2.drop 11).take 4 = bytesOfF32 s.dhtH
    ∧ ((communicate s input).2.drop 15).take 4 = bytesOfF32 s.dhtT
    ∧ ((communicate s input).2.drop 19).take 4 = bytesOfF32 s.dsT0
    ∧ ((communicate s input).2.drop 23).take 4 = bytesOfF32 s.dsT1
    ∧ ((communicate s input).2.drop 27).take 4 = bytesOfF32 s.dsT2
    ∧ (∀ j : Nat, j < 7 →
        decodeF32 (((communicate (setup false fun _ => false) [0xDF]).2.drop
          (3 + 4 * j)).take 4) = EMPTY_VAL) := by
  rw [communicate_trigger s input hok ht]
  refine ⟨rfl, rfl, rfl, rfl, rfl, rfl, rfl, ?_⟩
  decide

/-- Witness for C7 at the startup store. -/
theorem c7_payload_layout_witness :
    (bufOK (setup false (fun _ => false)) ∧ 0xDF ∈ [0xDF])
    ∧ ((communicate (setup false (fun _ => false)) [0xDF]).2.drop 3).take 4
        = bytesOfF32 (setup false (fun _ => false)).bmpP :=
  ⟨⟨bufOK_setup false (fun _ => false), by decide⟩,
   (c7_payload_layout (setup false (fun _ => false)) [0xDF]
      (bufOK_setup false (fun _ => false)) (by decide)).1⟩

/-- Claim C8: one `loop()` iteration performs exactly the sequence readBMP,
communicate, readDHT, communicate, readDS 0, communicate, readDS 1,
communicate, readDS 2, communicate; each of the five emitted outputs is the
frame of the store state reached immediately after the preceding sensor
step (or nothing if that drain saw no `0xDF`). -/
theorem c8_loop_order (s : Machine) (e : LoopEnv) (hok : bufOK s) :
    (loopIter s e).2 =
      [if 0xDF ∈ e.in1 then frameBytes (readBMP s e.bmpPIn e.bmpTIn).1 else [],
       if 0xDF ∈ e.in2 then
         frameBytes (readDHT (communicate (readBMP s e.bmpPIn e.bmpTIn).1 e.in1).1
           e.dhtHIn e.dhtTIn).1
       else [],
       if 0xDF ∈ e.in3 then
         frameBytes (readDS (communicate (readDHT (communicate
           (readBMP s e.bmpPIn e.bmpTIn).1 e.in1).1 e.dhtHIn e.dhtTIn).1 e.in2).1
           0 e.ds0In).1
       else [],
       if 0xDF ∈ e.in4 then
         frameBytes (readDS (communicate (readDS (communicate (readDHT (communicate
           (readBMP s e.bmpPIn e.bmpTIn).1 e.in1).1 e.dhtHIn e.dhtTIn).1 e.in2).1
           0 e.ds0In).1 e.in3).1 1 e.ds1In).1
       else [],
       if 0xDF ∈ e.in5 then
         frameBytes (readDS (communicate (readDS (communicate (readDS (communicate
           (readDHT (communicate (readBMP s e.bmpPIn e.bmpTIn).1 e.in1).1
             e.dhtHIn e.dhtTIn).1 e.in2).1 0 e.ds0In).1 e.in3).1 1 e.ds1In).1
           e.in4).1 2 e.ds2In).1
       else []] := by
  have k1 := bufOK_readBMP s e.bmpPIn e.bmpTIn hok
  have k2 := bufOK_communicate _ e.in1 k1
  have k3 := bufOK_readDHT _ e.dhtHIn e.dhtTIn k2
  have k4 := bufOK_communicate _ e.in2 k3
  have k5 := bufOK_readDS _ 0 e.ds0In k4
  have k6 := bufOK_communicate _ e.in3 k5
  have k7 := bufOK_readDS _ 1 e.ds1In k6
  have k8 := bufOK_communicate _ e.in4 k7
  have k9 := bufOK_readDS _ 2 e.ds2In k8
  simp only [loopIter]
  rw [communicate_output _ e.in1 k1, communicate_output _ e.in2 k3,
    communicate_output _ e.in3 k5, communicate_output _ e.in4 k7,
    communicate_output _ e.in5 k9]

/-- Witness for C8 at the startup store with a trigger in the first drain. -/
theorem c8_loop_order_witness :
    bufOK (setup false (fun _ => false))
    ∧ (loopIter (setup false (fun _ => false))
        ⟨0, 0, 0, 0, 0, 0, 0, [0xDF], [], [], [], []⟩).2.length = 5 :=
  ⟨bufOK_setup false (fun _ => false), by
    rw [c8_loop_order (setup false (fun _ => false))
      ⟨0, 0, 0, 0, 0, 0, 0, [0xDF], [], [], [], []⟩ (bufOK_setup false (fun _ => false))]
    rfl⟩

/-- Claim C9: `communicate` never changes any of the seven stored readings
(nor `bmpFound`); it only reads the store (and rewrites the output
buffer). -/
theorem c9_communicate_preserves_store (s : Machine) (input : List Nat) :
    (communicate s input).1.bmpP = s.bmpP
    ∧ (communicate s input).1.bmpT = s.bmpT
    ∧ (communicate s input).1.dhtH = s.dhtH
    ∧ (communicate s input).1.dhtT = s.dhtT
    ∧ (communicate s input).1.dsT0 = s.dsT0
    ∧ (communicate s input).1.dsT1 = s.dsT1
    ∧ (communicate s input).1.dsT2 = s.dsT2
    ∧ (communicate s input).1.bmpFound = s.bmpFound :=
  ⟨communicate_fst_bmpP s input, communicate_fst_bmpT s input,
   communicate_fst_dhtH s input, communicate_fst_dhtT s input,
   communicate_fst_dsT0 s input, communicate_fst_dsT1 s input,
   communicate_fst_dsT2 s input, communicate_fst_bmpFound s input⟩

/-- Claim C10: if the BMP280 was not detected at initialisation, `readBMP`
leaves the state unchanged without attempting a transaction, and after any
number of loop iterations both pressure-family channels still hold the
startup sentinel. -/
theorem c10_bmp_absent_forever (dsDet : Fin 3 → Bool) (envs : List LoopEnv)
    (s' : Machine) (p t : Nat) (hs : s'.bmpFound = false) :
    readBMP s' p t = (s', false)
    ∧ (loopN (setup false dsDet) envs).bmpP = EMPTY_VAL
    ∧ (loopN (setup false dsDet) envs).bmpT = EMPTY_VAL := by
  refine ⟨readBMP_absent s' p t hs, ?_, ?_⟩
  · exact (loopN_bmp_absent envs (setup false dsDet) rfl).2.1
  · exact (loopN_bmp_absent envs (setup false dsDet) rfl).2.2

/-- Witness for C10 after one concrete loop iteration with a trigger. -/
theorem c10_bmp_absent_forever_witness :
    machineInit.bmpFound = false
    ∧ readBMP machineInit 0 0 = (machineInit, false)
    ∧ (loopN (setup false (fun _ => false))
        [⟨0, 0, 0, 0, 0, 0, 0, [0xDF], [], [], [], []⟩]).bmpP = EMPTY_VAL
    ∧ (loopN (setup false (fun _ => false))
        [⟨0, 0, 0, 0, 0, 0, 0, [0xDF], [], [], [], []⟩]).bmpT = EMPTY_VAL :=
  ⟨rfl,
   (c10_bmp_absent_forever (fun _ => false)
      [⟨0, 0, 0, 0, 0, 0, 0, [0xDF], [], [], [], []⟩] machineInit 0 0 rfl).1,
   (c10_bmp_absent_forever (fun _ => false)
      [⟨0, 0, 0, 0, 0, 0, 0, [0xDF], [], [], [], []⟩] machineInit 0 0 rfl).2.1,
   (c10_bmp_absent_forever (fun _ => false)
      [⟨0, 0, 0, 0, 0, 0, 0, [0xDF], [], [], [], []⟩] machineInit 0 0 rfl).2.2⟩

end ClimateMeter
